import Mathlib

/-!
Shallow embedding of `pysurfer/io.py`: the FreeSurfer binary decoders
(geometry, curvature, annotation, volume scalar) and the `Surface`
container, with theorems checking the specified behaviour.

A file is modelled as its byte sequence `ByteStream := List Nat` (each entry a
byte value 0..255), and every decoder is a pure function from that stream.
The source runs under Python 2 (it uses `xrange` and `np.float`), which
matters once: integer-array division floors there.

IEEE-754 float32 decoding is kept abstract: wherever the source reads
big-endian `>f4` values, the model applies a parameter `d : DecodeF4` to the
raw 32-bit big-endian pattern of the four bytes.  No claim below depends on
the numeric value of a decoded float, so all float theorems are proved for
every such `d`.
-/

/-- A byte stream: the contents of an opened file, one `Nat` per byte. -/
abbrev ByteStream := List Nat

/-- Interpretation of the 4 raw bytes of a big-endian float32 (given as the
combined 32-bit pattern) as a rational number; kept abstract. -/
abbrev DecodeF4 := Nat → ℚ

/-- Error taxonomy of the decoders, following the Python exceptions raised by
`io.py`: `NotImplementedError` on the quad magic / volume version is
`unsupportedFormat` / `unsupportedVersion`, `ValueError` on a bad magic is
`invalidFormat`, the `KeyError` on an unmapped volume datatype code is
`unknownDatatype`, a numpy `IndexError` on an out-of-range array write is
`indexError`, the `AttributeError` from touching `self.coords` before
`load_geometry` is `missingDependency`, and every failure caused by the
stream ending before the requested bytes (tuple-unpack `ValueError`,
`[0]` on an empty `fromfile` result, `reshape` size mismatch,
`fromstring` size-not-a-multiple) is `truncatedRead`. -/
inductive Err where
  | invalidFormat
  | unsupportedFormat
  | unsupportedVersion
  | unknownDatatype
  | truncatedRead
  | missingDependency
  | indexError
  deriving DecidableEq, Repr

/-- Big-endian combination of two bytes. -/
def beNat2 (b0 b1 : Nat) : Nat := b0 * 256 + b1

/-- Big-endian combination of four bytes. -/
def beNat4 (b0 b1 b2 b3 : Nat) : Nat := ((b0 * 256 + b1) * 256 + b2) * 256 + b3

/-- Value of a big-endian signed 16-bit integer (`>i2`). -/
def i2val (b0 b1 : Nat) : Int :=
  let n := beNat2 b0 b1
  if n < 2 ^ 15 then (n : Int) else (n : Int) - 2 ^ 16

/-- Value of a big-endian signed 32-bit integer (`>i4`). -/
def i4val (b0 b1 b2 b3 : Nat) : Int :=
  let n := beNat4 b0 b1 b2 b3
  if n < 2 ^ 31 then (n : Int) else (n : Int) - 2 ^ 32

/-- Value of a signed 8-bit integer (`>i1`). -/
def i1val (b : Nat) : Int := if b < 128 then (b : Int) else (b : Int) - 256

/-- `_fread3`: `b1, b2, b3 = np.fromfile(fobj, ">u1", 3)` followed by
`(b1 << 16) + (b2 << 8) + b3`.  A shorter stream makes the tuple unpack
fail. -/
def fread3 (st : ByteStream) : Except Err (Nat × ByteStream) :=
  match st with
  | b1 :: b2 :: b3 :: rest => .ok ((b1 <<< 16) + (b2 <<< 8) + b3, rest)
  | _ => .error .truncatedRead

/-- `np.fromfile(fobj, ">i4", 1)[0]`: one big-endian int32; with fewer than
4 bytes left `fromfile` returns an empty array and the `[0]` fails. -/
def readOne (st : ByteStream) : Except Err (Int × ByteStream) :=
  match st with
  | b0 :: b1 :: b2 :: b3 :: rest => .ok (i4val b0 b1 b2 b3, rest)
  | _ => .error .truncatedRead

/-- `np.fromfile(fobj, ">i4", n)` with a nonnegative count: reads as many
complete items as are available, without error on a short read. -/
def readI4sF : Nat → ByteStream → List Int × ByteStream
  | 0, st => ([], st)
  | n + 1, b0 :: b1 :: b2 :: b3 :: rest =>
    let (xs, st') := readI4sF n rest
    (i4val b0 b1 b2 b3 :: xs, st')
  | _ + 1, st => ([], st)

/-- `np.fromfile(fobj, ">i2", n)` with a nonnegative count. -/
def readI2sF : Nat → ByteStream → List Int × ByteStream
  | 0, st => ([], st)
  | n + 1, b0 :: b1 :: rest =>
    let (xs, st') := readI2sF n rest
    (i2val b0 b1 :: xs, st')
  | _ + 1, st => ([], st)

/-- `np.fromfile(fobj, ">f4", n)` with a nonnegative count; each value is the
abstract decode of the raw big-endian 32-bit pattern. -/
def readF4sF (d : DecodeF4) : Nat → ByteStream → List ℚ × ByteStream
  | 0, st => ([], st)
  | n + 1, b0 :: b1 :: b2 :: b3 :: rest =>
    let (xs, st') := readF4sF d n rest
    (d (beNat4 b0 b1 b2 b3) :: xs, st')
  | _ + 1, st => ([], st)

/-- `np.fromfile` with a possibly negative count: numpy treats a negative
count as "read to the end of the file". -/
def fromfileI4 (count : Int) (st : ByteStream) : List Int × ByteStream :=
  if count < 0 then readI4sF st.length st else readI4sF count.toNat st

/-- `np.fromfile` for `>f4` with a possibly negative count. -/
def fromfileF4 (d : DecodeF4) (count : Int) (st : ByteStream) : List ℚ × ByteStream :=
  if count < 0 then readF4sF d st.length st else readF4sF d count.toNat st

/-- `fobj.readline()`: consume bytes up to and including the first newline
(byte 10); at end of file it returns whatever remains, without error. -/
def readLine : ByteStream → ByteStream
  | [] => []
  | b :: rest => if b = 10 then rest else readLine rest

/-- `reshape(n, 3)` applied to a flat list read by `fromfile`: fails
(`ValueError`) when `n` is negative or the element count is not `3 * n`. -/
def group3 {α : Type} : List α → Option (List (α × α × α))
  | [] => some []
  | a :: b :: c :: rest => (group3 rest).map fun l => (a, b, c) :: l
  | _ => none

/-- Reshape a flat `fromfile` result into `n` rows of 3 columns. -/
def reshapeN3 {α : Type} (xs : List α) (n : Int) : Except Err (List (α × α × α)) :=
  if n < 0 then .error .truncatedRead
  else if xs.length = n.toNat * 3 then
    match group3 xs with
    | some rows => .ok rows
    | none => .error .truncatedRead
  else .error .truncatedRead

/-- A decoded vertex: one row of the `nvtx × 3` coordinate array. -/
abbrev Vec3 := ℚ × ℚ × ℚ

/-- Body of `read_geometry` after the magic-number dispatch: skip the
creation-stamp line and one further line, read `vnum` and `fnum`, then the
`vnum × 3` float32 coordinates and the `fnum × 3` int32 faces.  The final
`coords.astype(np.float)` promotion (float32 to float64) is exact and leaves
the modelled values unchanged. -/
def readGeomBody (d : DecodeF4) (st0 : ByteStream) : Except Err (List Vec3 × List (Int × Int × Int)) :=
  let st1 := readLine st0
  let st2 := readLine st1
  match readOne st2 with
  | .error e => .error e
  | .ok (vnum, st3) =>
    match readOne st3 with
    | .error e => .error e
    | .ok (fnum, st4) =>
      let (craw, st5) := fromfileF4 d (vnum * 3) st4
      match reshapeN3 craw vnum with
      | .error e => .error e
      | .ok coords =>
        let (fraw, _) := fromfileI4 (fnum * 3) st5
        match reshapeN3 fraw fnum with
        | .error e => .error e
        | .ok faces => .ok (coords, faces)

/-- `read_geometry`: 3-byte magic, `NotImplementedError` on the quadrangle
magic 16777215, `ValueError` on any magic other than 16777214, else decode
the triangular mesh. -/
def read_geometry (d : DecodeF4) (bytes : ByteStream) :
    Except Err (List Vec3 × List (Int × Int × Int)) :=
  match fread3 bytes with
  | .error e => .error e
  | .ok (magic, st) =>
    if magic = 16777215 then .error .unsupportedFormat
    else if magic ≠ 16777214 then .error .invalidFormat
    else readGeomBody d st

/-- `read_curvature`: 3-byte magic.  New format (magic 16777215): `vnum` is
the first of three int32 reads, then `vnum` float32 values.  Old format:
the magic itself is `vnum`, one discarded `_fread3`, then `vnum` int16
values divided by `100` — an integer division under Python 2, which floors
(numpy follows Python floor semantics for integer arrays). -/
def read_curvature (d : DecodeF4) (bytes : ByteStream) : Except Err (List ℚ) :=
  match fread3 bytes with
  | .error e => .error e
  | .ok (magic, st) =>
    if magic = 16777215 then
      let (hdr, st1) := readI4sF 3 st
      match hdr with
      | vnum :: _ =>
        let (vals, _) := fromfileF4 d vnum st1
        .ok vals
      | [] => .error .truncatedRead
    else
      let vnum := magic
      match fread3 st with
      | .error e => .error e
      | .ok (_, st1) =>
        let (ints, _) := readI2sF vnum st1
        .ok (ints.map fun v => ((v.fdiv 100 : Int) : ℚ))

/-- `np.fromfile(fobj, "|S<len>", 1)[0]` with the string discarded: a
negative length is an invalid dtype, and with fewer than `len` bytes left
`fromfile` yields no complete item and the `[0]` fails. -/
def skipStr (len : Int) (st : ByteStream) : Except Err ByteStream :=
  if len < 0 then .error .truncatedRead
  else if len.toNat ≤ st.length then .ok (st.drop len.toNat)
  else .error .truncatedRead

/-- One iteration of the color-table loop in `read_annot`: a discarded
structure index, a name length, that many discarded name bytes, then 4
int32 values `r g b a` forming the row
`[r, g, b, a, r + g * 2^8 + b * 2^16 + a * 2^24]`.  A short `fromfile`
result makes the shape-(4,) assignment into `ctab[i, :4]` fail. -/
def readAnnotEntry (st : ByteStream) : Except Err (List Int × ByteStream) :=
  match readOne st with
  | .error e => .error e
  | .ok (_, st1) =>
    match readOne st1 with
    | .error e => .error e
    | .ok (name_length, st2) =>
      match skipStr name_length st2 with
      | .error e => .error e
      | .ok st3 =>
        let (rgba, st4) := readI4sF 4 st3
        match rgba with
        | [r, g, b, a] =>
          .ok ([r, g, b, a, r + g * 2 ^ 8 + b * 2 ^ 16 + a * 2 ^ 24], st4)
        | _ => .error .truncatedRead

/-- The `for i in xrange(entries_to_read)` loop of `read_annot`, writing row
`i` of the zero-initialised table on each iteration; writing past the end of
the table is a numpy `IndexError`. -/
def annotFillEntries : Nat → Nat → List (List Int) → ByteStream →
    Except Err (List (List Int) × ByteStream)
  | 0, _, ctab, st => .ok (ctab, st)
  | r + 1, i, ctab, st =>
    match readAnnotEntry st with
    | .error e => .error e
    | .ok (row, st') =>
      if i < ctab.length then annotFillEntries r (i + 1) (ctab.set i row) st'
      else .error .indexError

/-- `read_annot`: `vnum`, then `vnum * 2` int32 values reshaped to
`(vnum, 2)` (column 1 is the annotation array — computed but not part of the
returned value, exactly as in the source), then `ctab_exists` (zero means a
successful "no table" result), `ctab_version` (anything but `-2` also means
"no table"), `n_entries` (a zero-filled `(n_entries, 5)` table is
allocated; a negative count is a `ValueError` from `np.zeros`), a discarded
original-table-path string, `entries_to_read`, and the fill loop
(`xrange` of a negative count is empty). -/
def read_annot (bytes : ByteStream) : Except Err (Option (List (List Int))) :=
  match readOne bytes with
  | .error e => .error e
  | .ok (vnum, st1) =>
    let (pairs, st2) := fromfileI4 (vnum * 2) st1
    if vnum < 0 ∨ pairs.length ≠ vnum.toNat * 2 then .error .truncatedRead
    else
      match readOne st2 with
      | .error e => .error e
      | .ok (ctab_exists, st3) =>
        if ctab_exists = 0 then .ok none
        else
          match readOne st3 with
          | .error e => .error e
          | .ok (ctab_version, st4) =>
            if ctab_version ≠ -2 then .ok none
            else
              match readOne st4 with
              | .error e => .error e
              | .ok (n_entries, st5) =>
                if n_entries < 0 then .error .truncatedRead
                else
                  let ctab0 := List.replicate n_entries.toNat [0, 0, 0, 0, 0]
                  match readOne st5 with
                  | .error e => .error e
                  | .ok (plen, st6) =>
                    match skipStr plen st6 with
                    | .error e => .error e
                    | .ok st7 =>
                      match readOne st7 with
                      | .error e => .error e
                      | .ok (entries_to_read, st8) =>
                        match annotFillEntries entries_to_read.toNat 0 ctab0 st8 with
                        | .error e => .error e
                        | .ok (ctab, _) => .ok (some ctab)

/-- The element types of the volume scalar datatype map
`{0: (1, ">i1"), 1: (4, ">i4"), 3: (4, ">f4"), 4: (2, ">h")}`. -/
inductive MghType where
  | ti1
  | ti4
  | tf4
  | ti2
  deriving DecidableEq, Repr

/-- The FS datatype-code dictionary; an unmapped code is a `KeyError`. -/
def mghDtype (code : Int) : Option (Nat × MghType) :=
  if code = 0 then some (1, .ti1)
  else if code = 1 then some (4, .ti4)
  else if code = 3 then some (4, .tf4)
  else if code = 4 then some (2, .ti2)
  else none

/-- Decode a raw byte chunk as consecutive big-endian int32 values. -/
def chunkI4 : List Nat → List Int
  | b0 :: b1 :: b2 :: b3 :: rest => i4val b0 b1 b2 b3 :: chunkI4 rest
  | _ => []

/-- Decode a raw byte chunk as consecutive big-endian int16 values. -/
def chunkI2 : List Nat → List Int
  | b0 :: b1 :: rest => i2val b0 b1 :: chunkI2 rest
  | _ => []

/-- Decode a raw byte chunk as consecutive big-endian float32 values. -/
def chunkF4 (d : DecodeF4) : List Nat → List ℚ
  | b0 :: b1 :: b2 :: b3 :: rest => d (beNat4 b0 b1 b2 b3) :: chunkF4 d rest
  | _ => []

/-- `np.fromstring(buf, typecode)` on a full byte chunk. -/
def mghChunkVals (d : DecodeF4) (t : MghType) (chunk : List Nat) : List ℚ :=
  match t with
  | .ti1 => chunk.map fun b => ((i1val b : Int) : ℚ)
  | .ti4 => (chunkI4 chunk).map fun v => (v : ℚ)
  | .tf4 => chunkF4 d chunk
  | .ti2 => (chunkI2 chunk).map fun v => (v : ℚ)

/-- The `try` body of the custom fallback in `load_scalar_data`, i.e. the
value the local variable `scalar_data` receives: version (must be 1), the
three dimensions, the frame count and the datatype code are read as int32
(`np.fromstring(fobj.read(4), ">i4")[0]` behaves as one int32 read), the
stream is repositioned to absolute offset 284, and
`dim1 * dim2 * dim3 * frames * byte-width` bytes are read and decoded as a
flat sequence (`file.read` with a negative count reads to end of file;
`fromstring` needs the chunk length to be a multiple of the item width). -/
def mgh_decode_payload (d : DecodeF4) (bytes : ByteStream) : Except Err (List ℚ) :=
  match readOne bytes with
  | .error e => .error e
  | .ok (v, st1) =>
    if v ≠ 1 then .error .unsupportedVersion
    else
      match readOne st1 with
      | .error e => .error e
      | .ok (ndim1, st2) =>
        match readOne st2 with
        | .error e => .error e
        | .ok (ndim2, st3) =>
          match readOne st3 with
          | .error e => .error e
          | .ok (ndim3, st4) =>
            match readOne st4 with
            | .error e => .error e
            | .ok (nframes, st5) =>
              match readOne st5 with
              | .error e => .error e
              | .ok (datatype, _) =>
                match mghDtype datatype with
                | none => .error .unknownDatatype
                | some (databytes, typecode) =>
                  let data := bytes.drop 284
                  let nbytes : Int := ndim1 * ndim2 * ndim3 * nframes * (databytes : Int)
                  let chunk := if nbytes < 0 then data else data.take nbytes.toNat
                  if chunk.length % databytes = 0 then .ok (mghChunkVals d typecode chunk)
                  else .error .truncatedRead

/-- The custom fallback path of `load_scalar_data` (entered after the
external image library raised `ImageFileError`), given the file extension
and the bytes readable from the opened stream (for `.mgz` these are the
gzip-decompressed bytes; the decompression itself is external).  An
extension other than `.mgz`/`.mgh` is a `ValueError`.  Inside the `try`
block the decoded array is bound to the local `scalar_data` and the
`finally` closes the stream — but the function body ends without a `return`
statement, so on success Python returns `None`. -/
def load_scalar_data_fallback (ext : String) (d : DecodeF4) (bytes : ByteStream) :
    Except Err (Option (List ℚ)) :=
  if ext = ".mgz" ∨ ext = ".mgh" then
    match mgh_decode_payload d bytes with
    | .error e => .error e
    | .ok _scalar_data => .ok none
  else .error .unsupportedFormat

/-- The `Surface` container.  Python attributes that do not exist until the
corresponding load has run (`coords`, `faces`, `curv`, `bin_curv`,
`labels`) are `Option` fields starting at `none`; touching them first is an
`AttributeError`, modelled as `Err.missingDependency`.  The labels dict is
an association list with dict-update semantics. -/
structure Surface where
  subject_id : String
  hemi : String
  surf : String
  data_path : String
  coords : Option (List Vec3) := none
  faces : Option (List (Int × Int × Int)) := none
  curv : Option (List ℚ) := none
  bin_curv : Option (List Int) := none
  labels : Option (List (String × List Int)) := none
  deriving DecidableEq, Repr

/-- `self.coords, self.faces = read_geometry(surf_path)`; the model receives
the bytes of the file at the computed `surf/{hemi}.{surf}` path. -/
def Surface.load_geometry (s : Surface) (d : DecodeF4) (bytes : ByteStream) :
    Except Err Surface :=
  match read_geometry d bytes with
  | .error e => .error e
  | .ok (cs, fs) => .ok { s with coords := some cs, faces := some fs }

/-- Property `x`: `self.coords[:, 0]`. -/
def Surface.x (s : Surface) : Except Err (List ℚ) :=
  match s.coords with
  | none => .error .missingDependency
  | some cs => .ok (cs.map fun v => v.1)

/-- Property `y`: `self.coords[:, 1]`. -/
def Surface.y (s : Surface) : Except Err (List ℚ) :=
  match s.coords with
  | none => .error .missingDependency
  | some cs => .ok (cs.map fun v => v.2.1)

/-- Property `z`: `self.coords[:, 2]`. -/
def Surface.z (s : Surface) : Except Err (List ℚ) :=
  match s.coords with
  | none => .error .missingDependency
  | some cs => .ok (cs.map fun v => v.2.2)

/-- `load_curvature`: decode `surf/{hemi}.curv` and derive
`bin_curv = np.array(self.curv > 0, np.int)`. -/
def Surface.load_curvature (s : Surface) (d : DecodeF4) (bytes : ByteStream) :
    Except Err Surface :=
  match read_curvature d bytes with
  | .error e => .error e
  | .ok cv =>
    .ok { s with curv := some cv,
                 bin_curv := some (cv.map fun v => if 0 < v then (1 : Int) else 0) }

/-- Python dict update `labs[k] = v` on the association-list model. -/
def labelsInsert (labs : List (String × List Int)) (k : String) (v : List Int) :
    List (String × List Int) :=
  if labs.any fun p => p.1 = k then
    labs.map fun p => if p.1 = k then (k, v) else p
  else labs ++ [(k, v)]

/-- `load_label`: the argument `lbl` is the vertex-index list decoded from
`label/{hemi}.{name}.label` by `read_label` (a plain-text parse; the listed
vertex IDs are nonnegative).  `len(self.x)` touches `self.coords`, so the
call fails when geometry is not loaded; `label_array[label] = 1` on a
zero vector of that length fails on an out-of-range index; then
`try: self.labels[name] = label_array / except AttributeError:
self.labels = dict(name=label_array)` — the except branch keys the new dict
by the literal string `"name"`, not by the value of `name`. -/
def Surface.load_label (s : Surface) (name : String) (lbl : List Nat) :
    Except Err Surface :=
  match s.coords with
  | none => .error .missingDependency
  | some cs =>
    let n := cs.length
    if lbl.all fun i => i < n then
      let label_array := lbl.foldl (fun a i => a.set i 1) (List.replicate n (0 : Int))
      match s.labels with
      | some labs => .ok { s with labels := some (labelsInsert labs name label_array) }
      | none => .ok { s with labels := some [("name", label_array)] }
    else .error .indexError

/-- `apply_xfm`: the row of `np.dot(np.c_[coords, ones], mtx.T)[:, :3]`
for one vertex — entry `j` is
`x * mtx[j][0] + y * mtx[j][1] + z * mtx[j][2] + mtx[j][3]`. -/
def xfmRow (m : Fin 4 → Fin 4 → ℚ) (v : Vec3) : Vec3 :=
  (v.1 * m 0 0 + v.2.1 * m 0 1 + v.2.2 * m 0 2 + m 0 3,
   v.1 * m 1 0 + v.2.1 * m 1 1 + v.2.2 * m 1 2 + m 1 3,
   v.1 * m 2 0 + v.2.1 * m 2 1 + v.2.2 * m 2 2 + m 2 3)

/-- `apply_xfm(mtx)`: replaces `self.coords` with the first three columns of
the homogeneous coordinates right-multiplied by `mtx.T`; touching
`self.coords` without geometry loaded is an `AttributeError`. -/
def Surface.apply_xfm (s : Surface) (m : Fin 4 → Fin 4 → ℚ) : Except Err Surface :=
  match s.coords with
  | none => .error .missingDependency
  | some cs => .ok { s with coords := some (cs.map (xfmRow m)) }

/-! ## Concrete inputs used by the theorems below -/

/-- A float decode interpretation used to instantiate the abstract `DecodeF4`
where the value never matters. -/
def dZero : DecodeF4 := fun _ => 0

/-- A float decode interpretation mapping each raw pattern to itself, used
where distinct concrete coordinate values are convenient. -/
def dPat : DecodeF4 := fun p => (p : ℚ)

/-- A freshly constructed `Surface`: no load has run yet. -/
def sBase : Surface :=
  { subject_id := "fsaverage", hemi := "lh", surf := "inflated",
    data_path := "/subjects/fsaverage" }

/-- A version-1 `.mgh` fallback file: dims 1 x 1 x 1, 2 frames, datatype
code 0 (int8, 1 byte), header padded to offset 284, then the two data
bytes 7 and 250 (the int8 values 7 and -6). -/
def mghBytesC1 : ByteStream :=
  [0, 0, 0, 1, 0, 0, 0, 1, 0, 0, 0, 1, 0, 0, 0, 1,
   0, 0, 0, 2, 0, 0, 0, 0] ++ List.replicate 260 0 ++ [7, 250]

/-- C1: on the custom fallback path, for a well-formed version-1 file with a
known datatype code, the decode of `dim1 * dim2 * dim3 * frames` elements
succeeds — the `try` body binds `scalar_data := [7, -6]` — yet
`load_scalar_data` returns `None`, because the fallback path has no
`return` statement.  The claim (and the function's own docstring and the
library-decode path, which does return data) say the flat decoded sequence
is returned, so this is a bug in the code, exhibited here at a concrete
input. -/
theorem scalar_fallback_drops_data :
    load_scalar_data_fallback ".mgh" dZero mghBytesC1 = .ok none ∧
    mgh_decode_payload dZero mghBytesC1 = .ok [7, -6] ∧
    [(7 : ℚ), -6].length = 1 * 1 * 1 * 2 := by
  refine ⟨rfl, rfl, rfl⟩

/-- The old-format curvature file of the claim: magic 5, a 3-byte skipped
field, then the big-endian int16 values 100, -50, 0, 200, 1. -/
def curvBytesC2 : ByteStream :=
  [0, 0, 5, 0, 0, 0, 0, 100, 255, 206, 0, 0, 0, 200, 0, 1]

/-- C2: the old-format branch divides the int16 array by the integer `100`;
under Python 2 (the only interpreter that runs this file — it uses `xrange`
and `np.float`) numpy integer division floors, so the file of the claim
decodes to `[1, -1, 0, 2, 0]`, not to the fixed-point values
`[1.0, -0.5, 0.0, 2.0, 0.01]` the claim and the spec ("2 implied decimal
digits") describe.  The spec states the clear intent of the format, so the
missing `.0` in the divisor is a bug in the code. -/
theorem curvature_old_format_integer_division :
    read_curvature dZero curvBytesC2 = .ok [1, -1, 0, 2, 0] ∧
    ([1, -1, 0, 2, 0] : List ℚ) ≠ [1, -(1 / 2), 0, 2, 1 / 100] := by
  refine ⟨rfl, by norm_num⟩

/-- A `Surface` with geometry loaded (5 vertices) and no labels yet. -/
def sGeomC3 : Surface :=
  { sBase with coords := some [(0, 0, 0), (1, 0, 0), (0, 1, 0), (0, 0, 1), (1, 1, 1)] }

/-- C3: the indicator expansion is right — indices `[0, 3]` against 5
vertices give `[1, 0, 0, 1, 0]` — but on the *first* `load_label` call the
`except AttributeError` branch runs `self.labels = dict(name=label_array)`,
which keys the dictionary by the literal string `"name"`, not by the value
of the `name` argument (`"V1"` here), contradicting the claim and the
method's own docstring ("keyed by the name").  A bug in the code, exhibited
at a concrete first call. -/
theorem load_label_first_call_literal_key :
    sGeomC3.load_label "V1" [0, 3] =
      .ok { sGeomC3 with labels := some [("name", [1, 0, 0, 1, 0])] } ∧
    "V1" ≠ "name" := by
  refine ⟨rfl, by decide⟩

/-- C5: `read_geometry` fails with `UnsupportedFormatError` on the
quadrangle magic 16777215 and with `InvalidFormatError` on any magic other
than 16777215/16777214, in both cases as an `Except.error` carrying no
partial data; only magic 16777214 proceeds to the mesh decode
(`readGeomBody`). -/
theorem geometry_magic_dispatch (d : DecodeF4) (bytes st : ByteStream) (magic : Nat)
    (h : fread3 bytes = .ok (magic, st)) :
    (magic = 16777215 → read_geometry d bytes = .error .unsupportedFormat) ∧
    (magic ≠ 16777215 → magic ≠ 16777214 → read_geometry d bytes = .error .invalidFormat) ∧
    (magic = 16777214 → read_geometry d bytes = readGeomBody d st) := by
  refine ⟨?_, ?_, ?_⟩
  · intro hm
    simp [read_geometry, h, hm]
  · intro hm hm2
    simp [read_geometry, h, hm, hm2]
  · intro hm
    simp [read_geometry, h, hm]

/-- Witness for C5 at the two error magics. -/
theorem geometry_magic_dispatch_witness :
    fread3 [255, 255, 255, 9] = .ok (16777215, [9]) ∧
    read_geometry dZero [255, 255, 255, 9] = .error .unsupportedFormat ∧
    fread3 [0, 0, 0] = .ok (0, []) ∧
    read_geometry dZero [0, 0, 0] = .error .invalidFormat :=
  ⟨rfl,
   (geometry_magic_dispatch dZero [255, 255, 255, 9] [9] 16777215 rfl).1 rfl,
   rfl,
   (geometry_magic_dispatch dZero [0, 0, 0] [] 0 rfl).2.1 (by decide) (by decide)⟩

/-- C4: before `load_geometry` the attribute `self.coords` does not exist,
so each of the `x`/`y`/`z` properties fails (`AttributeError`, the spec's
`MissingDependencyError`); after a successful `load_geometry` they return
columns 0, 1 and 2 of the vertex array. -/
theorem axis_views_require_geometry (s : Surface) (d : DecodeF4) (bytes : ByteStream) :
    (s.coords = none →
      s.x = .error .missingDependency ∧ s.y = .error .missingDependency ∧
      s.z = .error .missingDependency) ∧
    (∀ cs fs, read_geometry d bytes = .ok (cs, fs) →
      s.load_geometry d bytes = .ok { s with coords := some cs, faces := some fs } ∧
      Surface.x { s with coords := some cs, faces := some fs } = .ok (cs.map fun v => v.1) ∧
      Surface.y { s with coords := some cs, faces := some fs } = .ok (cs.map fun v => v.2.1) ∧
      Surface.z { s with coords := some cs, faces := some fs } = .ok (cs.map fun v => v.2.2)) := by
  constructor
  · intro h
    simp [Surface.x, Surface.y, Surface.z, h]
  · intro cs fs h
    simp [Surface.load_geometry, Surface.x, Surface.y, Surface.z, h]

/-- A triangular-format geometry file: magic 16777214, two newline
terminated lines, `vnum = 1`, `fnum = 0`, then the three coordinate
float32 patterns 1, 2, 3. -/
def gBytesC4 : ByteStream :=
  [255, 255, 254, 10, 10, 0, 0, 0, 1, 0, 0, 0, 0,
   0, 0, 0, 1, 0, 0, 0, 2, 0, 0, 0, 3]

/-- Witness for C4: a fresh surface fails on all three views, and after
loading the one-vertex file the views return the three columns. -/
theorem axis_views_require_geometry_witness :
    (sBase.coords = none ∧
     sBase.x = .error .missingDependency ∧
     sBase.y = .error .missingDependency ∧
     sBase.z = .error .missingDependency) ∧
    (read_geometry dPat gBytesC4 = .ok ([(1, 2, 3)], []) ∧
     sBase.load_geometry dPat gBytesC4 =
       .ok { sBase with coords := some [(1, 2, 3)], faces := some [] } ∧
     Surface.x { sBase with coords := some [(1, 2, 3)], faces := some [] } = .ok [1] ∧
     Surface.y { sBase with coords := some [(1, 2, 3)], faces := some [] } = .ok [2] ∧
     Surface.z { sBase with coords := some [(1, 2, 3)], faces := some [] } = .ok [3]) := by
  have h := axis_views_require_geometry sBase dPat gBytesC4
  exact ⟨⟨rfl, (h.1 rfl).1, (h.1 rfl).2.1, (h.1 rfl).2.2⟩,
         ⟨rfl, (h.2 [(1, 2, 3)] [] rfl).1, (h.2 [(1, 2, 3)] [] rfl).2.1,
          (h.2 [(1, 2, 3)] [] rfl).2.2.1, (h.2 [(1, 2, 3)] [] rfl).2.2.2⟩⟩

/-- C6: with the annotation array read, a `ctab_exists` flag equal to 0
makes `read_annot` end successfully with no color table, and a nonzero flag
followed by a `ctab_version` other than -2 likewise ends successfully with
no table — neither is an error. -/
theorem annot_no_table_results (bytes st1 st2 st3 : ByteStream) (vnum ce : Int)
    (pairs : List Int)
    (h1 : readOne bytes = .ok (vnum, st1))
    (h2 : fromfileI4 (vnum * 2) st1 = (pairs, st2))
    (h3 : 0 ≤ vnum) (h4 : pairs.length = vnum.toNat * 2)
    (h5 : readOne st2 = .ok (ce, st3)) :
    (ce = 0 → read_annot bytes = .ok none) ∧
    (∀ ver st4, ce ≠ 0 → readOne st3 = .ok (ver, st4) → ver ≠ -2 →
      read_annot bytes = .ok none) := by
  have hv : ¬(vnum < 0 ∨ pairs.length ≠ vnum.toNat * 2) := by
    push_neg
    exact ⟨by omega, h4⟩
  constructor
  · intro hce
    simp [read_annot, h1, h2, hv, h5, hce]
  · intro ver st4 hce h6 hver
    simp [read_annot, h1, h2, hv, h5, hce, h6, hver]

/-- `ctab_exists = 0` annotation file: `vnum = 1`, one (index, value) pair,
then the zero flag. -/
def annotB0 : ByteStream :=
  [0, 0, 0, 1, 0, 0, 0, 0, 0, 0, 0, 5, 0, 0, 0, 0]

/-- `ctab_exists = 1` but `ctab_version = 0` annotation file. -/
def annotB1 : ByteStream :=
  [0, 0, 0, 1, 0, 0, 0, 0, 0, 0, 0, 5, 0, 0, 0, 1, 0, 0, 0, 0]

/-- Witness for C6 on both no-table shapes. -/
theorem annot_no_table_results_witness :
    read_annot annotB0 = .ok none ∧ read_annot annotB1 = .ok none :=
  ⟨(annot_no_table_results annotB0 [0, 0, 0, 0, 0, 0, 0, 5, 0, 0, 0, 0] [0, 0, 0, 0] []
      1 0 [0, 5] rfl rfl (by decide) (by decide) rfl).1 rfl,
   (annot_no_table_results annotB1 [0, 0, 0, 0, 0, 0, 0, 5, 0, 0, 0, 1, 0, 0, 0, 0]
      [0, 0, 0, 1, 0, 0, 0, 0] [0, 0, 0, 0] 1 1 [0, 5] rfl rfl (by decide) (by decide)
      rfl).2 0 [] (by decide) rfl (by decide)⟩

/-- The 4 x 4 identity matrix. -/
def idMtx4 : Fin 4 → Fin 4 → ℚ := fun i j => if i = j then 1 else 0

/-- Homogeneous coordinates of a vertex: the row `np.c_[coords, ones]`
contributes `[x, y, z, 1]`. -/
def homc (v : Vec3) : Fin 4 → ℚ := fun k =>
  if k = 0 then v.1 else if k = 1 then v.2.1 else if k = 2 then v.2.2 else 1

@[simp] theorem homc_zero (v : Vec3) : homc v 0 = v.1 := rfl

@[simp] theorem homc_one (v : Vec3) : homc v 1 = v.2.1 := rfl

@[simp] theorem homc_two (v : Vec3) : homc v 2 = v.2.2 := rfl

@[simp] theorem homc_three (v : Vec3) : homc v 3 = 1 := rfl

/-- A pointwise-identity map leaves a list unchanged. -/
theorem map_eq_self_of_id {α : Type} (f : α → α) (h : ∀ a, f a = a) :
    ∀ l : List α, l.map f = l := by
  intro l
  induction l with
  | nil => rfl
  | cons a t ih => simp [h, ih]

/-- C8: with geometry loaded, `apply_xfm` replaces each stored vertex `v`
by the first three entries of `[v | 1] * mtx.T` — component `j` is
`sum over k of homc v k * mtx j k` — and with the 4 x 4 identity matrix the
surface is left entirely unchanged (exactly, since the model is over `ℚ`;
in floating point this is the claim's "within tolerance"). -/
theorem apply_xfm_homogeneous (s : Surface) (c : List Vec3) (m : Fin 4 → Fin 4 → ℚ)
    (h : s.coords = some c) :
    s.apply_xfm m = .ok { s with coords := some (c.map fun v =>
      (∑ k, homc v k * m 0 k, ∑ k, homc v k * m 1 k, ∑ k, homc v k * m 2 k)) } ∧
    s.apply_xfm idMtx4 = .ok s := by
  have hrow : ∀ v : Vec3, xfmRow idMtx4 v = v := by
    rintro ⟨x, y, z⟩
    simp [xfmRow, idMtx4]
  constructor
  · have hfun : xfmRow m = fun v : Vec3 =>
        (∑ k, homc v k * m 0 k, ∑ k, homc v k * m 1 k, ∑ k, homc v k * m 2 k) := by
      funext v
      obtain ⟨x, y, z⟩ := v
      simp only [xfmRow, Fin.sum_univ_four, homc_zero, homc_one, homc_two, homc_three,
        Prod.mk.injEq]
      refine ⟨by ring, by ring, by ring⟩
    simp [Surface.apply_xfm, h, hfun]
  · obtain ⟨sid, hm, sf, dp, co, fa, cu, bc, la⟩ := s
    simp only [] at h
    subst h
    simp [Surface.apply_xfm, map_eq_self_of_id _ hrow]

/-- A surface with one loaded vertex, for the C8 witness. -/
def sGeomC8 : Surface := { sBase with coords := some [(1, 2, 3)] }

/-- A concrete non-identity 4 x 4 matrix for the C8 witness. -/
def mtxC8 : Fin 4 → Fin 4 → ℚ := fun i j => (i : ℚ) + 2 * (j : ℚ)

/-- Witness for C8 at a concrete surface and matrix. -/
theorem apply_xfm_homogeneous_witness :
    sGeomC8.coords = some [(1, 2, 3)] ∧
    sGeomC8.apply_xfm mtxC8 = .ok { sGeomC8 with coords := some ([(1, 2, 3)].map fun v =>
      (∑ k, homc v k * mtxC8 0 k, ∑ k, homc v k * mtxC8 1 k, ∑ k, homc v k * mtxC8 2 k)) } ∧
    sGeomC8.apply_xfm idMtx4 = .ok sGeomC8 :=
  ⟨rfl, (apply_xfm_homogeneous sGeomC8 [(1, 2, 3)] mtxC8 rfl).1,
   (apply_xfm_homogeneous sGeomC8 [(1, 2, 3)] mtxC8 rfl).2⟩

/-- C10: with geometry loaded, `apply_xfm` only rebinds `self.coords`: every
other field is unchanged, and the new coordinate list has the same number
of rows (one per vertex); each row is a `Vec3`, i.e. 3 columns, by type. -/
theorem apply_xfm_frame_conditions (s : Surface) (c : List Vec3) (m : Fin 4 → Fin 4 → ℚ)
    (h : s.coords = some c) :
    ∃ s' c', s.apply_xfm m = .ok s' ∧
      s'.subject_id = s.subject_id ∧ s'.hemi = s.hemi ∧ s'.surf = s.surf ∧
      s'.data_path = s.data_path ∧ s'.faces = s.faces ∧ s'.curv = s.curv ∧
      s'.bin_curv = s.bin_curv ∧ s'.labels = s.labels ∧
      s'.coords = some c' ∧ c'.length = c.length := by
  refine ⟨{ s with coords := some (c.map (xfmRow m)) }, c.map (xfmRow m), ?_,
    rfl, rfl, rfl, rfl, rfl, rfl, rfl, rfl, rfl, by simp⟩
  simp [Surface.apply_xfm, h]

/-- A surface with two loaded vertices and other fields populated, for the
C10 witness. -/
def sGeomC10 : Surface :=
  { sBase with coords := some [(1, 2, 3), (4, 5, 6)],
               faces := some [(0, 1, 0)], curv := some [1, -1],
               bin_curv := some [1, 0], labels := some [("V1", [1, 0])] }

/-- Witness for C10 at a concrete surface and matrix. -/
theorem apply_xfm_frame_conditions_witness :
    sGeomC10.coords = some [(1, 2, 3), (4, 5, 6)] ∧
    (∃ s' c', sGeomC10.apply_xfm mtxC8 = .ok s' ∧
      s'.subject_id = sGeomC10.subject_id ∧ s'.hemi = sGeomC10.hemi ∧
      s'.surf = sGeomC10.surf ∧ s'.data_path = sGeomC10.data_path ∧
      s'.faces = sGeomC10.faces ∧ s'.curv = sGeomC10.curv ∧
      s'.bin_curv = sGeomC10.bin_curv ∧ s'.labels = sGeomC10.labels ∧
      s'.coords = some c' ∧ c'.length = [(1, 2, 3), (4, 5, 6)].length) :=
  ⟨rfl, apply_xfm_frame_conditions sGeomC10 [(1, 2, 3), (4, 5, 6)] mtxC8 rfl⟩

/-- Whether a decode call succeeded (no exception escaped). -/
def exOk {α : Type} : Except Err α → Bool
  | .ok _ => true
  | .error _ => false

/-- C9 counterexample: the three loads are *not* independent.  On a surface
whose curvature is loaded but whose geometry is not, `load_label` with a
perfectly well-formed decoded label fails (`len(self.x)` touches
`self.coords`), while the identical call succeeds once geometry is present
— so the failure is caused precisely by the missing geometry load. -/
theorem load_label_requires_geometry_cex :
    ({ sBase with curv := some [1], bin_curv := some [1] } : Surface).load_label
      "V1" [0, 3] = .error .missingDependency ∧
    exOk (({ sBase with
               curv := some [1],
               bin_curv := some [1],
               coords := some [(0, 0, 0), (1, 0, 0), (0, 1, 0), (0, 0, 1), (1, 1, 1)] } :
           Surface).load_label "V1" [0, 3]) = true :=
  ⟨rfl, rfl⟩

/-- C9 (amended): `load_geometry` and `load_curvature` succeed or fail
independently of anything previously loaded on the surface; `load_label`
succeeds for a well-formed decoded label regardless of curvature or prior
labels, provided geometry has been loaded, and fails with the
missing-dependency error whenever geometry has not been loaded. -/
theorem surface_loads_independence_amended :
    (∀ (s1 s2 : Surface) (d : DecodeF4) (bytes : ByteStream),
      exOk (s1.load_geometry d bytes) = exOk (s2.load_geometry d bytes)) ∧
    (∀ (s1 s2 : Surface) (d : DecodeF4) (bytes : ByteStream),
      exOk (s1.load_curvature d bytes) = exOk (s2.load_curvature d bytes)) ∧
    (∀ (s : Surface) (c : List Vec3) (name : String) (lbl : List Nat),
      s.coords = some c → (lbl.all fun i => i < c.length) = true →
      exOk (s.load_label name lbl) = true) ∧
    (∀ (s : Surface) (name : String) (lbl : List Nat),
      s.coords = none → s.load_label name lbl = .error .missingDependency) := by
  refine ⟨?_, ?_, ?_, ?_⟩
  · intro s1 s2 d bytes
    cases h : read_geometry d bytes <;> simp [Surface.load_geometry, h, exOk]
  · intro s1 s2 d bytes
    cases h : read_curvature d bytes <;> simp [Surface.load_curvature, h, exOk]
  · intro s c name lbl h1 h2
    cases h3 : s.labels <;> simp [Surface.load_label, h1, h2, h3, exOk]
  · intro s name lbl h
    simp [Surface.load_label, h]

/-- Geometry file for the C9 witness (same layout as `gBytesC4`). -/
def gBytesC9 : ByteStream :=
  [255, 255, 254, 10, 10, 0, 0, 0, 1, 0, 0, 0, 0,
   0, 0, 0, 1, 0, 0, 0, 2, 0, 0, 0, 3]

/-- Old-format curvature file for the C9 witness: magic 1, skip field, one
int16 value. -/
def curvBytesC9 : ByteStream := [0, 0, 1, 0, 0, 0, 0, 100]

/-- A surface with geometry, curvature and a label already present, for the
C9 witness. -/
def sFullC9 : Surface :=
  { sBase with coords := some [(0, 0, 0), (1, 0, 0), (0, 1, 0), (0, 0, 1), (1, 1, 1)],
               curv := some [1], bin_curv := some [1],
               labels := some [("MT", [0, 0, 0, 0, 0])] }

/-- Witness for C9 (amended) at concrete surfaces and files. -/
theorem surface_loads_independence_amended_witness :
    exOk (sBase.load_geometry dPat gBytesC9) = exOk (sFullC9.load_geometry dPat gBytesC9) ∧
    exOk (sBase.load_curvature dZero curvBytesC9) =
      exOk (sFullC9.load_curvature dZero curvBytesC9) ∧
    (sFullC9.coords = some [(0, 0, 0), (1, 0, 0), (0, 1, 0), (0, 0, 1), (1, 1, 1)] ∧
     ([0, 3].all fun i =>
        i < [((0 : ℚ), (0 : ℚ), (0 : ℚ)), (1, 0, 0), (0, 1, 0), (0, 0, 1), (1, 1, 1)].length) =
       true ∧
     exOk (sFullC9.load_label "V1" [0, 3]) = true) ∧
    (sBase.coords = none ∧ sBase.load_label "V1" [0, 3] = .error .missingDependency) :=
  ⟨surface_loads_independence_amended.1 sBase sFullC9 dPat gBytesC9,
   surface_loads_independence_amended.2.1 sBase sFullC9 dZero curvBytesC9,
   ⟨rfl, by decide,
    surface_loads_independence_amended.2.2.1 sFullC9
      [(0, 0, 0), (1, 0, 0), (0, 1, 0), (0, 0, 1), (1, 1, 1)] "V1" [0, 3] rfl (by decide)⟩,
   ⟨rfl, surface_loads_independence_amended.2.2.2 sBase "V1" [0, 3] rfl⟩⟩

/-- Every row produced by one color-table loop iteration has the
`[r, g, b, a, packed]` shape with the packed ID computed from the first
four entries. -/
theorem readAnnotEntry_shape (st : ByteStream) (row : List Int) (st' : ByteStream)
    (h : readAnnotEntry st = .ok (row, st')) :
    ∃ a b c dd, row = [a, b, c, dd, a + b * 2 ^ 8 + c * 2 ^ 16 + dd * 2 ^ 24] := by
  unfold readAnnotEntry at h
  cases h1 : readOne st with
  | error e => simp only [h1] at h; exact Except.noConfusion h
  | ok p1 =>
    obtain ⟨x1, s1⟩ := p1
    simp only [h1] at h
    cases h2 : readOne s1 with
    | error e => simp only [h2] at h; exact Except.noConfusion h
    | ok p2 =>
      obtain ⟨nl, s2⟩ := p2
      simp only [h2] at h
      cases h3 : skipStr nl s2 with
      | error e => simp only [h3] at h; exact Except.noConfusion h
      | ok s3 =>
        simp only [h3] at h
        rcases h4 : readI4sF 4 s3 with ⟨rgba, s4⟩
        simp only [h4] at h
        rcases rgba with _ | ⟨a, _ | ⟨b, _ | ⟨c, _ | ⟨dd, _ | ⟨e, t⟩⟩⟩⟩⟩
        · exact Except.noConfusion h
        · exact Except.noConfusion h
        · exact Except.noConfusion h
        · exact Except.noConfusion h
        · injection h with h5
          injection h5 with h6 h7
          exact ⟨a, b, c, dd, h6.symm⟩
        · exact Except.noConfusion h

/-- The color-table fill loop preserves the table length. -/
theorem annotFill_length (r : Nat) : ∀ (i : Nat) (ctab : List (List Int))
    (st : ByteStream) (ctab' : List (List Int)) (st' : ByteStream),
    annotFillEntries r i ctab st = .ok (ctab', st') → ctab'.length = ctab.length := by
  induction r with
  | zero =>
    intro i ctab st ctab' st' h
    simp only [annotFillEntries] at h
    injection h with hp
    injection hp with h1 h2
    rw [← h1]
  | succ n ih =>
    intro i ctab st ctab' st' h
    simp only [annotFillEntries] at h
    cases hre : readAnnotEntry st with
    | error e => simp only [hre] at h; exact Except.noConfusion h
    | ok pr =>
      obtain ⟨row, stn⟩ := pr
      simp only [hre] at h
      by_cases hi : i < ctab.length
      · rw [if_pos hi] at h
        have := ih (i + 1) (ctab.set i row) stn ctab' st' h
        simpa [List.length_set] using this
      · rw [if_neg hi] at h
        exact Except.noConfusion h

/-- Rows outside the window `[i, i + r)` are left exactly as they were by
the fill loop. -/
theorem annotFill_untouched (r : Nat) : ∀ (i : Nat) (ctab : List (List Int))
    (st : ByteStream) (ctab' : List (List Int)) (st' : ByteStream),
    annotFillEntries r i ctab st = .ok (ctab', st') →
    ∀ j, j < i ∨ i + r ≤ j → ctab'[j]? = ctab[j]? := by
  induction r with
  | zero =>
    intro i ctab st ctab' st' h j hj
    simp only [annotFillEntries] at h
    injection h with hp
    injection hp with h1 h2
    rw [← h1]
  | succ n ih =>
    intro i ctab st ctab' st' h j hj
    simp only [annotFillEntries] at h
    cases hre : readAnnotEntry st with
    | error e => simp only [hre] at h; exact Except.noConfusion h
    | ok pr =>
      obtain ⟨row, stn⟩ := pr
      simp only [hre] at h
      by_cases hi : i < ctab.length
      · rw [if_pos hi] at h
        have h2 := ih (i + 1) (ctab.set i row) stn ctab' st' h j (by omega)
        rw [h2, List.getElem?_set_ne (by omega)]
      · rw [if_neg hi] at h
        exact Except.noConfusion h

/-- A successful fill of `r > 0` entries starting at row `i` implies the
table has at least `i + r` rows. -/
theorem annotFill_bound (r : Nat) : ∀ (i : Nat) (ctab : List (List Int))
    (st : ByteStream) (ctab' : List (List Int)) (st' : ByteStream),
    annotFillEntries r i ctab st = .ok (ctab', st') → r = 0 ∨ i + r ≤ ctab.length := by
  induction r with
  | zero =>
    intro i ctab st ctab' st' _
    exact Or.inl rfl
  | succ n ih =>
    intro i ctab st ctab' st' h
    simp only [annotFillEntries] at h
    cases hre : readAnnotEntry st with
    | error e => simp only [hre] at h; exact Except.noConfusion h
    | ok pr =>
      obtain ⟨row, stn⟩ := pr
      simp only [hre] at h
      by_cases hi : i < ctab.length
      · rw [if_pos hi] at h
        rcases ih (i + 1) (ctab.set i row) stn ctab' st' h with h0 | hle
        · right; omega
        · right
          rw [List.length_set] at hle
          omega
      · rw [if_neg hi] at h
        exact Except.noConfusion h

/-- Every row inside the window `[i, i + r)` of a successful fill holds the
4 RGBA values followed by the packed ID. -/
theorem annotFill_written (r : Nat) : ∀ (i : Nat) (ctab : List (List Int))
    (st : ByteStream) (ctab' : List (List Int)) (st' : ByteStream),
    annotFillEntries r i ctab st = .ok (ctab', st') →
    ∀ j, i ≤ j → j < i + r →
    ∃ a b c dd, ctab'[j]? = some [a, b, c, dd, a + b * 2 ^ 8 + c * 2 ^ 16 + dd * 2 ^ 24] := by
  induction r with
  | zero =>
    intro i ctab st ctab' st' _ j h1 h2
    omega
  | succ n ih =>
    intro i ctab st ctab' st' h j h1 h2
    simp only [annotFillEntries] at h
    cases hre : readAnnotEntry st with
    | error e => simp only [hre] at h; exact Except.noConfusion h
    | ok pr =>
      obtain ⟨row, stn⟩ := pr
      simp only [hre] at h
      by_cases hi : i < ctab.length
      · rw [if_pos hi] at h
        rcases Nat.eq_or_lt_of_le h1 with rfl | hlt
        · have hu := annotFill_untouched n (i + 1) (ctab.set i row) stn ctab' st' h i
            (Or.inl (by omega))
          obtain ⟨a, b, c, dd, hrow⟩ := readAnnotEntry_shape st row stn hre
          refine ⟨a, b, c, dd, ?_⟩
          rw [hu, List.getElem?_set_self hi, hrow]
        · exact ih (i + 1) (ctab.set i row) stn ctab' st' h j (by omega) (by omega)
      · rw [if_neg hi] at h
        exact Except.noConfusion h

/-- C7: whenever `read_annot` returns a color table, the table keeps its
allocated `n_entries` length with rows of 5 columns; each of the first
`entries_to_read` rows carries its packed ID
`R + G * 2^8 + B * 2^16 + A * 2^24` in column 4, and every remaining row is
still the zero fill. -/
theorem annot_ctab_rows (bytes : ByteStream) (ctab : List (List Int))
    (h : read_annot bytes = .ok (some ctab)) :
    (∀ row ∈ ctab, row.length = 5) ∧
    ∃ etr, etr ≤ ctab.length ∧
      (∀ j, j < etr → ∃ a b c dd,
        ctab[j]? = some [a, b, c, dd, a + b * 2 ^ 8 + c * 2 ^ 16 + dd * 2 ^ 24]) ∧
      (∀ j, etr ≤ j → j < ctab.length → ctab[j]? = some [0, 0, 0, 0, 0]) := by
  unfold read_annot at h
  cases h1 : readOne bytes with
  | error e => simp only [h1] at h; exact Except.noConfusion h
  | ok p1 =>
    obtain ⟨vnum, st1⟩ := p1
    simp only [h1] at h
    rcases hfp : fromfileI4 (vnum * 2) st1 with ⟨pairs, st2⟩
    simp only [hfp] at h
    by_cases hcond : vnum < 0 ∨ pairs.length ≠ vnum.toNat * 2
    · rw [if_pos hcond] at h
      exact Except.noConfusion h
    · rw [if_neg hcond] at h
      cases h2 : readOne st2 with
      | error e => simp only [h2] at h; exact Except.noConfusion h
      | ok p2 =>
        obtain ⟨ce, st3⟩ := p2
        simp only [h2] at h
        by_cases hce : ce = 0
        · rw [if_pos hce] at h
          injection h with hsome
          exact Option.noConfusion hsome
        · rw [if_neg hce] at h
          cases h3 : readOne st3 with
          | error e => simp only [h3] at h; exact Except.noConfusion h
          | ok p3 =>
            obtain ⟨cv, st4⟩ := p3
            simp only [h3] at h
            by_cases hcv : cv = -2
            · rw [if_neg (by simpa using hcv)] at h
              cases h4 : readOne st4 with
              | error e => simp only [h4] at h; exact Except.noConfusion h
              | ok p4 =>
                obtain ⟨ne, st5⟩ := p4
                simp only [h4] at h
                by_cases hne : ne < 0
                · rw [if_pos hne] at h
                  exact Except.noConfusion h
                · rw [if_neg hne] at h
                  cases h5 : readOne st5 with
                  | error e => simp only [h5] at h; exact Except.noConfusion h
                  | ok p5 =>
                    obtain ⟨plen, st6⟩ := p5
                    simp only [h5] at h
                    cases h6 : skipStr plen st6 with
                    | error e => simp only [h6] at h; exact Except.noConfusion h
                    | ok st7 =>
                      simp only [h6] at h
                      cases h7 : readOne st7 with
                      | error e => simp only [h7] at h; exact Except.noConfusion h
                      | ok p7 =>
                        obtain ⟨etr, st8⟩ := p7
                        simp only [h7] at h
                        cases h8 : annotFillEntries etr.toNat 0
                            (List.replicate ne.toNat [0, 0, 0, 0, 0]) st8 with
                        | error e => simp only [h8] at h; exact Except.noConfusion h
                        | ok pr =>
                          obtain ⟨ctabR, st9⟩ := pr
                          simp only [h8] at h
                          injection h with hsome
                          injection hsome with hctab
                          subst hctab
                          have hlen : ctabR.length = ne.toNat := by
                            simpa using annotFill_length etr.toNat 0
                              (List.replicate ne.toNat [0, 0, 0, 0, 0]) st8 ctabR st9 h8
                          have hetr : etr.toNat ≤ ctabR.length := by
                            rcases annotFill_bound etr.toNat 0
                                (List.replicate ne.toNat [0, 0, 0, 0, 0]) st8 ctabR st9 h8 with
                              h0 | hle
                            · omega
                            · simp only [List.length_replicate] at hle
                              omega
                          have hwr : ∀ j, j < etr.toNat → ∃ a b c dd,
                              ctabR[j]? = some [a, b, c, dd,
                                a + b * 2 ^ 8 + c * 2 ^ 16 + dd * 2 ^ 24] := by
                            intro j hj
                            exact annotFill_written etr.toNat 0
                              (List.replicate ne.toNat [0, 0, 0, 0, 0]) st8 ctabR st9 h8 j
                              (by omega) (by omega)
                          have hzr : ∀ j, etr.toNat ≤ j → j < ctabR.length →
                              ctabR[j]? = some [0, 0, 0, 0, 0] := by
                            intro j hj1 hj2
                            have hu := annotFill_untouched etr.toNat 0
                              (List.replicate ne.toNat [0, 0, 0, 0, 0]) st8 ctabR st9 h8 j
                              (Or.inr (by omega))
                            rw [hu, List.getElem?_replicate, if_pos (by omega)]
                          refine ⟨?_, etr.toNat, hetr, hwr, hzr⟩
                          intro row hrow
                          obtain ⟨j, hj⟩ := List.mem_iff_getElem?.mp hrow
                          by_cases hjw : j < etr.toNat
                          · obtain ⟨a, b, c, dd, hj2⟩ := hwr j hjw
                            rw [hj] at hj2
                            injection hj2 with hj3
                            rw [hj3]
                            rfl
                          · by_cases hjl : j < ctabR.length
                            · have := hzr j (by omega) hjl
                              rw [hj] at this
                              injection this with hj3
                              rw [hj3]
                              rfl
                            · have : ctabR[j]? = none := by
                                rw [List.getElem?_eq_none]
                                omega
                              rw [hj] at this
                              exact Option.noConfusion this
            · rw [if_pos hcv] at h
              injection h with hsome
              exact Option.noConfusion hsome

/-- An annotation file with a version -2 color table: `vnum = 1`, one
(index, value) pair, `ctab_exists = 1`, `ctab_version = -2`,
`n_entries = 2`, a 1-byte original-table path, `entries_to_read = 1`, and
one entry with structure index 0, a 1-byte name, and RGBA
(10, 20, 30, 0). -/
def annotC7 : ByteStream :=
  [0, 0, 0, 1] ++ [0, 0, 0, 0, 0, 0, 0, 5] ++ [0, 0, 0, 1] ++
  [255, 255, 255, 254] ++ [0, 0, 0, 2] ++ [0, 0, 0, 1] ++ [65] ++
  [0, 0, 0, 1] ++ [0, 0, 0, 0] ++ [0, 0, 0, 1] ++ [66] ++
  [0, 0, 0, 10, 0, 0, 0, 20, 0, 0, 0, 30, 0, 0, 0, 0]

/-- C7 counterexample: the claim's worked example is arithmetically wrong.
The code packs the entry (R=10, G=20, B=30, A=0) as
`10 + 20 * 2^8 + 30 * 2^16 + 0 * 2^24 = 1971210` — which is what the
claim's own formula gives — not the claimed value 1,972,746. -/
theorem annot_ctab_packed_example_cex :
    read_annot annotC7 = .ok (some [[10, 20, 30, 0, 1971210], [0, 0, 0, 0, 0]]) ∧
    (10 : Int) + 20 * 2 ^ 8 + 30 * 2 ^ 16 + 0 * 2 ^ 24 = 1971210 ∧
    (1971210 : Int) ≠ 1972746 :=
  ⟨rfl, by decide, by decide⟩

/-- Witness for C7 at the concrete file `annotC7`. -/
theorem annot_ctab_rows_witness :
    read_annot annotC7 = .ok (some [[10, 20, 30, 0, 1971210], [0, 0, 0, 0, 0]]) ∧
    ((∀ row ∈ [[(10 : Int), 20, 30, 0, 1971210], [0, 0, 0, 0, 0]], row.length = 5) ∧
     ∃ etr, etr ≤ [[(10 : Int), 20, 30, 0, 1971210], [0, 0, 0, 0, 0]].length ∧
       (∀ j, j < etr → ∃ a b c dd,
         [[(10 : Int), 20, 30, 0, 1971210], [0, 0, 0, 0, 0]][j]? =
           some [a, b, c, dd, a + b * 2 ^ 8 + c * 2 ^ 16 + dd * 2 ^ 24]) ∧
       (∀ j, etr ≤ j → j < [[(10 : Int), 20, 30, 0, 1971210], [0, 0, 0, 0, 0]].length →
         [[(10 : Int), 20, 30, 0, 1971210], [0, 0, 0, 0, 0]][j]? =
           some [0, 0, 0, 0, 0])) :=
  ⟨rfl, annot_ctab_rows annotC7 [[10, 20, 30, 0, 1971210], [0, 0, 0, 0, 0]] rfl⟩
